import Mathlib

/-!
Shallow embedding of the SiliconToaster protocol driver
(`silicontoaster/silicontoaster.py`).

Modelling conventions:

* The serial transport (`self.ser`, a pyserial `Serial` object) is modelled by
  the `SerialPort` state record.  `read n` returns the first `min n |input|`
  bytes of the pending device output and consumes them — a short or empty
  return models the transport yielding fewer bytes than requested (pyserial's
  behaviour when the read deadline expires).  Every read request length and
  every write attempt is logged in the state so that theorems can speak about
  what the driver put on (or asked from) the wire.  `writeFails` injects a
  transport write failure (`serial.SerialException`, modelled as
  `PyErr.serialError`).
* Python exceptions are modelled by the `PyErr` type; driver methods return
  `Except PyErr α × SerialPort`.  A bare `assert` statement raises
  `AssertionError`, which carries no message.
* Python machine floats are modelled by exact rationals built from the decimal
  literals of the source; `round` is Python's round-half-to-even.
* Bytes are `Nat` values below 256; frames are `List Nat`.
-/

/-- Python exceptions that the driver code can raise. -/
inductive PyErr where
  /-- A failed bare `assert` statement; it carries no message. -/
  | assertionError
  /-- `ValueError(msg)` raised by the driver's local validation. -/
  | valueError (msg : String)
  /-- `struct.error(msg)` raised by `struct.pack` / `struct.unpack`. -/
  | structError (msg : String)
  /-- `OverflowError` raised by `int.to_bytes` on an unrepresentable value. -/
  | overflowError (msg : String)
  /-- `serial.SerialException`: the underlying transport write failed. -/
  | serialError
  deriving Repr, DecidableEq

/-- The message attached to an exception, when it has one.  A bare `assert`
and a transport failure carry none. -/
def PyErr.errMsg : PyErr → Option String
  | .assertionError => none
  | .valueError m => some m
  | .structError m => some m
  | .overflowError m => some m
  | .serialError => none

/-- State of the serial transport (`self.ser`).  `input` is the byte stream
the device has made available to be read; `written` the bytes successfully
written; `writeAttempts` logs every frame the driver tried to write (also
the failing ones); `readRequests` logs the length of every read request. -/
structure SerialPort where
  input : List Nat
  written : List Nat
  writeAttempts : List (List Nat)
  readRequests : List Nat
  writeFails : Bool
  deriving Repr, DecidableEq

/-- `self.ser.write(frame)`: logs the attempt, then either fails
(`writeFails`) or appends the frame to the bytes on the wire. -/
def SerialPort.write (t : SerialPort) (frame : List Nat) :
    Except PyErr Unit × SerialPort :=
  let t1 := { t with writeAttempts := t.writeAttempts ++ [frame] }
  if t.writeFails then (.error .serialError, t1)
  else (.ok (), { t1 with written := t1.written ++ frame })

/-- `self.ser.read(n)`: returns up to `n` pending bytes and consumes them;
fewer than `n` (possibly none) model the read deadline expiring. -/
def SerialPort.read (t : SerialPort) (n : Nat) : List Nat × SerialPort :=
  (t.input.take n,
   { t with input := t.input.drop n, readRequests := t.readRequests ++ [n] })

/-- `int.from_bytes(bs, "big", signed=False)`: big-endian value of the bytes;
note that it accepts any length, and yields `0` on the empty byte string. -/
def intFromBytes (bs : List Nat) : Nat :=
  bs.foldl (fun a b => a * 256 + b) 0

/-- `n.to_bytes(2, "big", signed=False)`: two big-endian bytes, or
`OverflowError` when `n` is negative or does not fit in 16 bits. -/
def intToBytes2 (n : Int) : Except PyErr (List Nat) :=
  if 0 ≤ n ∧ n < 65536 then .ok [n.toNat / 256, n.toNat % 256]
  else .error (.overflowError "int too big to convert")

/-- `struct.pack(">H", n)`: two big-endian bytes, or `struct.error` when `n`
is outside the unsigned 16-bit range. -/
def structPackH (n : Int) : Except PyErr (List Nat) :=
  if 0 ≤ n ∧ n < 65536 then .ok [n.toNat / 256, n.toNat % 256]
  else .error (.structError "H format requires 0 <= number <= 65535")

/-- `struct.unpack(">H", bs)[0]`: requires exactly 2 bytes. -/
def structUnpackH (bs : List Nat) : Except PyErr Nat :=
  if bs.length = 2 then .ok (intFromBytes bs)
  else .error (.structError "unpack requires a buffer of 2 bytes")

/-- `struct.unpack(">I", bs)[0]`: requires exactly 4 bytes. -/
def structUnpackI (bs : List Nat) : Except PyErr Nat :=
  if bs.length = 4 then .ok (intFromBytes bs)
  else .error (.structError "unpack requires a buffer of 4 bytes")

/-- `struct.unpack(">" + str(n) + "H", bs)`: requires exactly `2 * n` bytes,
decoding `n` big-endian unsigned 16-bit integers. -/
def structUnpackHs (n : Nat) (bs : List Nat) : Except PyErr (List Nat) :=
  if bs.length = n * 2 then
    .ok ((List.range n).map fun i => intFromBytes ((bs.drop (2 * i)).take 2))
  else .error (.structError "unpack requires a buffer of the exact size")

/-- `self.calibration_raw_to_v`: the raw→volt polynomial coefficients,
highest degree first, as exact rationals of the source's decimal literals. -/
def calibration_raw_to_v : List ℚ :=
  [-(402294398 : ℚ) / 10 ^ 19,
   (153492378 : ℚ) / 10 ^ 15,
   -(271166328 : ℚ) / 10 ^ 12,
   (766927146 : ℚ) / 10 ^ 9,
   -(112729564 : ℚ) / 10 ^ 8]

/-- `self.calibration_v_to_raw`: the volt→raw polynomial coefficients,
highest degree first, as exact rationals of the source's decimal literals. -/
def calibration_v_to_raw : List ℚ :=
  [(559972560 : ℚ) / 10 ^ 18,
   -(102408301 : ℚ) / 10 ^ 14,
   (106453179 : ℚ) / 10 ^ 11,
   (124457162 : ℚ) / 10 ^ 8,
   (257379247 : ℚ) / 10 ^ 8]

/-- `SiliconToaster.convert(value, calibration)`: the accumulator loop
`for i, c in enumerate(calibration): v += c * value ** (len(calibration) - i - 1)`. -/
def convert (value : ℚ) (calibration : List ℚ) : ℚ :=
  calibration.enum.foldl
    (fun v ic => v + ic.2 * value ^ (calibration.length - ic.1 - 1)) 0

/-- Python's `round` on a float with no digits argument: nearest integer,
ties to even. -/
def roundHalfEven (q : ℚ) : ℤ :=
  if q - ⌊q⌋ < 1 / 2 then ⌊q⌋
  else if 1 / 2 < q - ⌊q⌋ then ⌊q⌋ + 1
  else if ⌊q⌋ % 2 = 0 then ⌊q⌋ else ⌊q⌋ + 1

/-- `SiliconToaster.to_raw`: `int(round(convert(value, calibration_v_to_raw)))`. -/
def to_raw (value : ℚ) : ℤ :=
  roundHalfEven (convert value calibration_v_to_raw)

/-- `SiliconToaster.to_volt`: `convert(value, calibration_raw_to_v)`. -/
def to_volt (value : ℚ) : ℚ :=
  convert value calibration_raw_to_v

/-- `SiliconToaster.on_off(enable)`: write opcode `0x01` plus one boolean
byte, then `assert self.ser.read(1) == b"\x01"`. -/
def on_off (enable : Bool) (t : SerialPort) : Except PyErr Unit × SerialPort :=
  match t.write ([0x01] ++ [if enable then 1 else 0]) with
  | (.error e, t1) => (.error e, t1)
  | (.ok _, t1) =>
    let (ack, t2) := t1.read 1
    if ack = [0x01] then (.ok (), t2) else (.error .assertionError, t2)

/-- `SiliconToaster.read_voltage_raw()`: write opcode `0x02`, assert the
one-byte echo, then return `int.from_bytes(self.ser.read(2), "big")`. -/
def read_voltage_raw (t : SerialPort) : Except PyErr Nat × SerialPort :=
  match t.write [0x02] with
  | (.error e, t1) => (.error e, t1)
  | (.ok _, t1) =>
    let (ack, t2) := t1.read 1
    if ack = [0x02] then
      let (payload, t3) := t2.read 2
      (.ok (intFromBytes payload), t3)
    else (.error .assertionError, t2)

/-- `SiliconToaster.set_pwm_settings(period, width)`: three local `ValueError`
checks, then opcode `0x03` plus two big-endian uint16 fields, then the echo
assert. -/
def set_pwm_settings (period width : Int) (t : SerialPort) :
    Except PyErr Unit × SerialPort :=
  if period < 1 then
    (.error (.valueError "Invalid PWM period: it must be greater or equal to 1"), t)
  else if width < 0 then
    (.error (.valueError "Invalid PWM width: it must be positive"), t)
  else if width ≥ period then
    (.error (.valueError "Invalid PWM settings values: width must be lesser than period"), t)
  else
    match intToBytes2 period with
    | .error e => (.error e, t)
    | .ok pb =>
      match intToBytes2 width with
      | .error e => (.error e, t)
      | .ok wb =>
        match t.write ([0x03] ++ pb ++ wb) with
        | (.error e, t1) => (.error e, t1)
        | (.ok _, t1) =>
          let (ack, t2) := t1.read 1
          if ack = [0x03] then (.ok (), t2) else (.error .assertionError, t2)

/-- `SiliconToaster.software_shoot(duration)`: `ValueError` unless
`duration in range(0x10000)`, then opcode `0x04` plus a big-endian uint16,
then the echo assert. -/
def software_shoot (duration : Int) (t : SerialPort) :
    Except PyErr Unit × SerialPort :=
  if ¬(0 ≤ duration ∧ duration < 65536) then
    (.error (.valueError "Invalid software shoot duration: it must be lesser than 65536"), t)
  else
    match intToBytes2 duration with
    | .error e => (.error e, t)
    | .ok db =>
      match t.write ([0x04] ++ db) with
      | (.error e, t1) => (.error e, t1)
      | (.ok _, t1) =>
        let (ack, t2) := t1.read 1
        if ack = [0x04] then (.ok (), t2) else (.error .assertionError, t2)

/-- `SiliconToaster.set_voltage_setpoint(destination)`: the frame is opcode
`0x07` plus `struct.pack(">H", self.to_raw(destination))`; packing happens
before any transport write, and there is no voltage-range validation. -/
def set_voltage_setpoint (destination : ℚ) (t : SerialPort) :
    Except PyErr Unit × SerialPort :=
  match structPackH (to_raw destination) with
  | .error e => (.error e, t)
  | .ok pb =>
    match t.write ([0x07] ++ pb) with
    | (.error e, t1) => (.error e, t1)
    | (.ok _, t1) =>
      let (ack, t2) := t1.read 1
      if ack = [0x07] then (.ok (), t2) else (.error .assertionError, t2)

/-- `SiliconToaster.adc_control_on_off()`: write opcode `0xAB`, assert the
echo, then return `self.ser.read(1) == b"\x01"`. -/
def adc_control_on_off (t : SerialPort) : Except PyErr Bool × SerialPort :=
  match t.write [0xAB] with
  | (.error e, t1) => (.error e, t1)
  | (.ok _, t1) =>
    let (ack, t2) := t1.read 1
    if ack = [0xAB] then
      let (b, t3) := t2.read 1
      (.ok (decide (b = [0x01])), t3)
    else (.error .assertionError, t2)

/-- `SiliconToaster.adc_results()`: write opcode `0xAC`, assert the echo,
unpack a uint32 count `v` from 4 bytes, then read `v * 2` bytes and unpack
`v` uint16 samples.  (The `print(v)` side effect is not modelled.)  There is
no sanity bound on `v` before the `v * 2`-byte read is requested. -/
def adc_results (t : SerialPort) : Except PyErr (List Nat) × SerialPort :=
  match t.write [0xAC] with
  | (.error e, t1) => (.error e, t1)
  | (.ok _, t1) =>
    let (ack, t2) := t1.read 1
    if ack = [0xAC] then
      let (cb, t3) := t2.read 4
      match structUnpackI cb with
      | .error e => (.error e, t3)
      | .ok v =>
        let (data, t4) := t3.read (v * 2)
        match structUnpackHs v data with
        | .error e => (.error e, t4)
        | .ok samples => (.ok samples, t4)
    else (.error .assertionError, t2)

/-- The polynomial evaluation as the specification words it: the sum
`Σ c_i * x ^ (degree - i)` with the first coefficient as the highest-degree
term.  Stated independently of the source's accumulator loop so the loop can
be proved to refine it. -/
def specEvaluate (coeffs : List ℚ) (x : ℚ) : ℚ :=
  ∑ i ∈ Finset.range coeffs.length, coeffs.getD i 0 * x ^ (coeffs.length - 1 - i)

/-- `SiliconToaster.__del__`: runs `self.on_off(False)`.  Per Python's
`object.__del__` semantics, an exception raised inside a finalizer is ignored
by the interpreter (a warning is printed) and never propagates to the caller,
so teardown completes in either case with whatever transport state the
attempt left behind. -/
def del_obj (t : SerialPort) : SerialPort :=
  match on_off false t with
  | (.ok _, t1) => t1
  | (.error _, t1) => t1

/-! ## Helper lemmas -/

/-- Rounding a rational that lies in `[n, n + 1/2)` gives `n`. -/
theorem roundHalfEven_of_lt (q : ℚ) (n : ℤ) (h1 : (n : ℚ) ≤ q)
    (h2 : q < (n : ℚ) + 1 / 2) : roundHalfEven q = n := by
  have hf : ⌊q⌋ = n := Int.floor_eq_iff.mpr ⟨h1, by linarith⟩
  unfold roundHalfEven
  rw [hf, if_pos (by linarith)]

/-- Rounding a rational that lies in `(n - 1/2, n)` gives `n`. -/
theorem roundHalfEven_of_gt (q : ℚ) (n : ℤ) (h1 : (n : ℚ) - 1 / 2 < q)
    (h2 : q < (n : ℚ)) : roundHalfEven q = n := by
  have hf : ⌊q⌋ = n - 1 := by
    rw [Int.floor_eq_iff]
    constructor
    · push_cast; linarith
    · push_cast; linarith
  unfold roundHalfEven
  rw [hf, if_neg (by push_cast; linarith), if_pos (by push_cast; linarith)]
  omega

theorem convert_neg_two : convert (-2) calibration_v_to_raw =
    88915558783640960 / 10 ^ 18 := by
  norm_num [convert, calibration_v_to_raw, List.enum, List.enumFrom]

theorem convert_zero : convert 0 calibration_v_to_raw = 257379247 / 10 ^ 8 := by
  norm_num [convert, calibration_v_to_raw, List.enum, List.enumFrom]

theorem convert_1001 : convert 1001 calibration_v_to_raw =
    1445397954855068127 / 781250000000000 := by
  norm_num [convert, calibration_v_to_raw, List.enum, List.enumFrom]

theorem convert_5000 : convert 5000 calibration_v_to_raw =
    25481120039247 / 10 ^ 8 := by
  norm_num [convert, calibration_v_to_raw, List.enum, List.enumFrom]

theorem to_raw_neg_two : to_raw (-2) = 0 := by
  unfold to_raw
  rw [convert_neg_two]
  apply roundHalfEven_of_lt <;> norm_num

theorem to_raw_zero : to_raw 0 = 3 := by
  unfold to_raw
  rw [convert_zero]
  apply roundHalfEven_of_gt <;> norm_num

theorem to_raw_1001 : to_raw 1001 = 1850 := by
  unfold to_raw
  rw [convert_1001]
  apply roundHalfEven_of_lt <;> norm_num

theorem to_raw_5000 : to_raw 5000 = 254811 := by
  unfold to_raw
  rw [convert_5000]
  apply roundHalfEven_of_lt <;> norm_num

/-- The accumulator loop of `convert`, started at any accumulator value and
any enumeration offset, adds the corresponding partial polynomial sum. -/
theorem convert_enumFrom (x : ℚ) (L : ℕ) (cs : List ℚ) : ∀ (n : ℕ) (a : ℚ),
    (List.enumFrom n cs).foldl (fun v ic => v + ic.2 * x ^ (L - ic.1 - 1)) a
      = a + ∑ i ∈ Finset.range cs.length, cs.getD i 0 * x ^ (L - (n + i) - 1) := by
  induction cs with
  | nil => intro n a; simp
  | cons c cs ih =>
    intro n a
    simp only [List.enumFrom, List.foldl_cons, List.length_cons]
    rw [ih (n + 1) (a + c * x ^ (L - n - 1)), Finset.sum_range_succ']
    simp only [List.getD_cons_succ, List.getD_cons_zero, Nat.add_zero,
      Nat.add_succ, Nat.succ_add]
    ring

/-- The source's accumulator loop computes exactly the specification's
polynomial sum. -/
theorem convert_eq_specEvaluate (x : ℚ) (coeffs : List ℚ) :
    convert x coeffs = specEvaluate coeffs x := by
  unfold convert specEvaluate List.enum
  rw [convert_enumFrom x coeffs.length coeffs 0 0]
  simp only [Nat.zero_add, zero_add]
  refine Finset.sum_congr rfl fun i _ => ?_
  rw [Nat.sub_sub, Nat.sub_sub, Nat.add_comm i 1]

/-! ## Claim theorems -/

/-- C1: `__del__` always attempts to disable high-voltage generation by
issuing the `on_off(false)` frame `[0x01, 0x00]`, and a transport write
failure during that best-effort power-off does not propagate past the
teardown boundary: `del_obj` completes on every transport state, including
one whose write fails (where `on_off` itself raises). -/
theorem teardown_always_attempts_power_off :
    (∀ t : SerialPort, (del_obj t).writeAttempts = t.writeAttempts ++ [[0x01, 0x00]]) ∧
    (on_off false ⟨[], [], [], [], true⟩).1 = .error .serialError ∧
    del_obj ⟨[], [], [], [], true⟩ = ⟨[], [], [[0x01, 0x00]], [], true⟩ := by
  refine ⟨?_, rfl, rfl⟩
  intro t
  unfold del_obj on_off SerialPort.write SerialPort.read
  by_cases h : t.writeFails
  · simp [h]
  · by_cases hack : t.input.take 1 = [0x01] <;> simp [h, hack]

/-- C2 counterexample: sending the `0x01` power command and receiving `0x02`
as acknowledgment makes the operation fail with a bare `AssertionError`,
which carries no message at all — not a `ProtocolError` reporting the
expected and received bytes. -/
theorem on_off_wrong_ack_is_bare_assertion :
    (on_off true ⟨[0x02], [], [], [], false⟩).1 = .error .assertionError ∧
    PyErr.errMsg .assertionError = none :=
  ⟨rfl, rfl⟩

/-- C2 amended: for every embedded command — `on_off`, `read_voltage_raw`,
`set_pwm_settings`, `software_shoot`, `set_voltage_setpoint`,
`adc_control_on_off` and `adc_results` — any acknowledgment byte that
differs from the expected opcode echo (including an empty read) makes the
operation fail, but with a bare `AssertionError` carrying no message,
rather than a `ProtocolError` reporting expected and received bytes.  For
the commands with request parameters, the parameters are assumed valid so
that the frame reaches the wire at all. -/
theorem ack_mismatch_raises_assertionError :
    (∀ (enable : Bool) (t : SerialPort), t.writeFails = false →
      t.input.take 1 ≠ [0x01] → (on_off enable t).1 = .error .assertionError) ∧
    (∀ t : SerialPort, t.writeFails = false → t.input.take 1 ≠ [0x02] →
      (read_voltage_raw t).1 = .error .assertionError) ∧
    (∀ (p w : Int) (t : SerialPort), 1 ≤ p → 0 ≤ w → w < p → p < 65536 →
      t.writeFails = false → t.input.take 1 ≠ [0x03] →
      (set_pwm_settings p w t).1 = .error .assertionError) ∧
    (∀ (d : Int) (t : SerialPort), 0 ≤ d → d < 65536 →
      t.writeFails = false → t.input.take 1 ≠ [0x04] →
      (software_shoot d t).1 = .error .assertionError) ∧
    (∀ (v : ℚ) (t : SerialPort), 0 ≤ to_raw v → to_raw v < 65536 →
      t.writeFails = false → t.input.take 1 ≠ [0x07] →
      (set_voltage_setpoint v t).1 = .error .assertionError) ∧
    (∀ t : SerialPort, t.writeFails = false → t.input.take 1 ≠ [0xAB] →
      (adc_control_on_off t).1 = .error .assertionError) ∧
    (∀ t : SerialPort, t.writeFails = false → t.input.take 1 ≠ [0xAC] →
      (adc_results t).1 = .error .assertionError) := by
  refine ⟨?_, ?_, ?_, ?_, ?_, ?_, ?_⟩
  · intro enable t hw hack
    unfold on_off SerialPort.write SerialPort.read
    simp [hw, hack]
  · intro t hw hack
    unfold read_voltage_raw SerialPort.write SerialPort.read
    simp [hw, hack]
  · intro p w t hp hw0 hwp hp2 hwf hack
    have e1 : intToBytes2 p = .ok [p.toNat / 256, p.toNat % 256] := by
      unfold intToBytes2
      rw [if_pos ⟨by omega, by omega⟩]
    have e2 : intToBytes2 w = .ok [w.toNat / 256, w.toNat % 256] := by
      unfold intToBytes2
      rw [if_pos ⟨by omega, by omega⟩]
    unfold set_pwm_settings SerialPort.write SerialPort.read
    simp [e1, e2, hwf, hack, (show ¬p < 1 by omega), (show ¬w < 0 by omega),
      (show ¬w ≥ p by omega)]
  · intro d t hd0 hd2 hwf hack
    have e : intToBytes2 d = .ok [d.toNat / 256, d.toNat % 256] := by
      unfold intToBytes2
      rw [if_pos ⟨hd0, hd2⟩]
    have hg : ¬¬(0 ≤ d ∧ d < 65536) := not_not_intro ⟨hd0, hd2⟩
    unfold software_shoot SerialPort.write SerialPort.read
    simp [e, hg, hwf, hack]
  · intro v t h0 h2 hwf hack
    have e : structPackH (to_raw v) =
        .ok [(to_raw v).toNat / 256, (to_raw v).toNat % 256] := by
      unfold structPackH
      rw [if_pos ⟨h0, h2⟩]
    unfold set_voltage_setpoint SerialPort.write SerialPort.read
    simp [e, hwf, hack]
  · intro t hw hack
    unfold adc_control_on_off SerialPort.write SerialPort.read
    simp [hw, hack]
  · intro t hw hack
    unfold adc_results SerialPort.write SerialPort.read
    simp [hw, hack]

theorem ack_mismatch_raises_assertionError_witness :
    (on_off true ⟨[0x02], [], [], [], false⟩).1 = .error .assertionError ∧
    (read_voltage_raw ⟨[0xFF], [], [], [], false⟩).1 = .error .assertionError ∧
    (set_pwm_settings 10 9 ⟨[0xFF], [], [], [], false⟩).1 =
      .error .assertionError ∧
    (software_shoot 0 ⟨[0xFF], [], [], [], false⟩).1 = .error .assertionError ∧
    (set_voltage_setpoint 0 ⟨[0xFF], [], [], [], false⟩).1 =
      .error .assertionError ∧
    (adc_control_on_off ⟨[0xFF], [], [], [], false⟩).1 =
      .error .assertionError ∧
    (adc_results ⟨[0xFF], [], [], [], false⟩).1 = .error .assertionError :=
  ⟨ack_mismatch_raises_assertionError.1 true ⟨[0x02], [], [], [], false⟩ rfl
      (by decide),
   ack_mismatch_raises_assertionError.2.1 ⟨[0xFF], [], [], [], false⟩ rfl
      (by decide),
   ack_mismatch_raises_assertionError.2.2.1 10 9 ⟨[0xFF], [], [], [], false⟩
      (by decide) (by decide) (by decide) (by decide) rfl (by decide),
   ack_mismatch_raises_assertionError.2.2.2.1 0 ⟨[0xFF], [], [], [], false⟩
      (by decide) (by decide) rfl (by decide),
   ack_mismatch_raises_assertionError.2.2.2.2.1 0 ⟨[0xFF], [], [], [], false⟩
      (by rw [to_raw_zero]; decide) (by rw [to_raw_zero]; decide) rfl
      (by decide),
   ack_mismatch_raises_assertionError.2.2.2.2.2.1 ⟨[0xFF], [], [], [], false⟩
      rfl (by decide),
   ack_mismatch_raises_assertionError.2.2.2.2.2.2 ⟨[0xFF], [], [], [], false⟩
      rfl (by decide)⟩

/-- C3 counterexample: when the transport yields the correct `0x02` echo but
zero bytes for the 2-byte payload, `read_voltage_raw` does not fail at all:
it silently returns the default value `0`. -/
theorem read_voltage_raw_empty_payload_returns_zero :
    (read_voltage_raw ⟨[0x02], [], [], [], false⟩).1 = .ok 0 :=
  rfl

/-- C3 amended: a zero-byte read at the acknowledgment position fails with
`AssertionError` (not `TimeoutError`); a short or empty read of the 2-byte
payload is not detected at all — `read_voltage_raw` returns the big-endian
value of however many bytes arrived, in particular `0` on an empty read. -/
theorem read_voltage_raw_short_read_behaviour :
    (∀ t : SerialPort, t.writeFails = false → t.input = [] →
      (read_voltage_raw t).1 = .error .assertionError) ∧
    (∀ (rest : List Nat) (t : SerialPort), t.writeFails = false →
      t.input = 0x02 :: rest →
      (read_voltage_raw t).1 = .ok (intFromBytes (rest.take 2))) := by
  constructor
  · intro t hw hi
    unfold read_voltage_raw SerialPort.write SerialPort.read
    simp [hw, hi]
  · intro rest t hw hi
    unfold read_voltage_raw SerialPort.write SerialPort.read
    simp [hw, hi]

theorem read_voltage_raw_short_read_behaviour_witness :
    (read_voltage_raw ⟨[], [], [], [], false⟩).1 = .error .assertionError ∧
    (read_voltage_raw ⟨[0x02, 0x05], [], [], [], false⟩).1 =
      .ok (intFromBytes ([0x05].take 2)) :=
  ⟨read_voltage_raw_short_read_behaviour.1 ⟨[], [], [], [], false⟩ rfl rfl,
   read_voltage_raw_short_read_behaviour.2 [0x05] ⟨[0x02, 0x05], [], [], [], false⟩
     rfl rfl⟩

/-- C4 counterexample: `set_voltage_setpoint (-2)` — a voltage outside
`[0, 1000]` — is not rejected: no `ValidationError` is raised, and the frame
`[0x07, 0x00, 0x00]` is written to the transport. -/
theorem set_voltage_setpoint_no_range_check :
    (set_voltage_setpoint (-2) ⟨[0x07], [], [], [], false⟩).1 = .ok () ∧
    (set_voltage_setpoint (-2) ⟨[0x07], [], [], [], false⟩).2.written =
      [0x07, 0x00, 0x00] := by
  have h0 : structPackH (to_raw (-2)) = .ok [0x00, 0x00] := by
    rw [to_raw_neg_two]; rfl
  constructor <;> · unfold set_voltage_setpoint; rw [h0]; rfl

/-- C4 amended: `set_voltage_setpoint` performs no `[0, 1000]` voltage
validation at all: voltages outside that range whose raw conversion fits the
unsigned 16-bit field (such as `-2` and `1001`) are transmitted; the only
rejection is the struct packing error raised, before any transport I/O,
when `to_raw(destination)` falls outside `[0, 65535]`. -/
theorem set_voltage_setpoint_only_uint16_guard :
    (set_voltage_setpoint (-2) ⟨[0x07], [], [], [], false⟩).1 = .ok () ∧
    (set_voltage_setpoint 1001 ⟨[0x07], [], [], [], false⟩).1 = .ok () ∧
    (∀ (v : ℚ) (t : SerialPort), ¬(0 ≤ to_raw v ∧ to_raw v < 65536) →
      (set_voltage_setpoint v t).1 =
          .error (.structError "H format requires 0 <= number <= 65535") ∧
        (set_voltage_setpoint v t).2 = t) := by
  have h0 : structPackH (to_raw (-2)) = .ok [0x00, 0x00] := by
    rw [to_raw_neg_two]; rfl
  have h1 : structPackH (to_raw 1001) = .ok [0x07, 0x3A] := by
    rw [to_raw_1001]; rfl
  refine ⟨?_, ?_, ?_⟩
  · unfold set_voltage_setpoint; rw [h0]; rfl
  · unfold set_voltage_setpoint; rw [h1]; rfl
  · intro v t h
    unfold set_voltage_setpoint structPackH
    rw [if_neg h]
    exact ⟨rfl, rfl⟩

theorem set_voltage_setpoint_only_uint16_guard_witness :
    (set_voltage_setpoint 5000 ⟨[0x07], [], [], [], false⟩).1 =
        .error (.structError "H format requires 0 <= number <= 65535") ∧
      (set_voltage_setpoint 5000 ⟨[0x07], [], [], [], false⟩).2 =
        ⟨[0x07], [], [], [], false⟩ :=
  set_voltage_setpoint_only_uint16_guard.2.2 5000 ⟨[0x07], [], [], [], false⟩
    (by rw [to_raw_5000]; decide)

/-- C5: `set_pwm_settings` enforces `1 ≤ period` and `0 ≤ width < period`
before transmission: every violating pair is rejected with a local
`ValueError` leaving the transport untouched; concretely `(0, 0)`,
`(10, 10)` and `(10, 11)` are rejected with nothing written, while
`(10, 9)` is accepted and writes the frame `[0x03, 0, 10, 0, 9]`. -/
theorem set_pwm_settings_validation :
    (∀ (p w : Int) (t : SerialPort), p < 1 ∨ w < 0 ∨ p ≤ w →
      (∃ m, (set_pwm_settings p w t).1 = .error (.valueError m)) ∧
        (set_pwm_settings p w t).2 = t) ∧
    set_pwm_settings 0 0 ⟨[0x03], [], [], [], false⟩ =
      (.error (.valueError "Invalid PWM period: it must be greater or equal to 1"),
        ⟨[0x03], [], [], [], false⟩) ∧
    set_pwm_settings 10 10 ⟨[0x03], [], [], [], false⟩ =
      (.error (.valueError "Invalid PWM settings values: width must be lesser than period"),
        ⟨[0x03], [], [], [], false⟩) ∧
    set_pwm_settings 10 11 ⟨[0x03], [], [], [], false⟩ =
      (.error (.valueError "Invalid PWM settings values: width must be lesser than period"),
        ⟨[0x03], [], [], [], false⟩) ∧
    (set_pwm_settings 10 9 ⟨[0x03], [], [], [], false⟩).1 = .ok () ∧
    (set_pwm_settings 10 9 ⟨[0x03], [], [], [], false⟩).2.written =
      [0x03, 0x00, 0x0A, 0x00, 0x09] := by
  refine ⟨?_, rfl, rfl, rfl, rfl, rfl⟩
  intro p w t h
  unfold set_pwm_settings
  rcases h with h | h | h
  · rw [if_pos h]
    exact ⟨⟨_, rfl⟩, rfl⟩
  · rcases lt_or_le p 1 with h1 | h1
    · rw [if_pos h1]
      exact ⟨⟨_, rfl⟩, rfl⟩
    · rw [if_neg (not_lt.mpr h1), if_pos h]
      exact ⟨⟨_, rfl⟩, rfl⟩
  · rcases lt_or_le p 1 with h1 | h1
    · rw [if_pos h1]
      exact ⟨⟨_, rfl⟩, rfl⟩
    · have hw0 : ¬w < 0 := not_lt.mpr (le_trans (le_trans zero_le_one h1) h)
      rw [if_neg (not_lt.mpr h1), if_neg hw0, if_pos (ge_iff_le.mpr h)]
      exact ⟨⟨_, rfl⟩, rfl⟩

theorem set_pwm_settings_validation_witness :
    (∃ m, (set_pwm_settings 0 0 ⟨[0x03], [], [], [], false⟩).1 =
        .error (.valueError m)) ∧
      (set_pwm_settings 0 0 ⟨[0x03], [], [], [], false⟩).2 =
        ⟨[0x03], [], [], [], false⟩ :=
  set_pwm_settings_validation.1 0 0 ⟨[0x03], [], [], [], false⟩ (Or.inl (by decide))

/-- C6: `software_shoot` rejects every duration outside `[0, 65535]` (in
particular `65536` and `-1`) with a local `ValueError` before any transport
I/O, and accepts `0` and `65535`, writing the frame. -/
theorem software_shoot_validation :
    (∀ (d : Int) (t : SerialPort), ¬(0 ≤ d ∧ d < 65536) →
      (software_shoot d t).1 =
          .error (.valueError "Invalid software shoot duration: it must be lesser than 65536") ∧
        (software_shoot d t).2 = t) ∧
    (software_shoot 0 ⟨[0x04], [], [], [], false⟩).1 = .ok () ∧
    (software_shoot 0 ⟨[0x04], [], [], [], false⟩).2.written =
      [0x04, 0x00, 0x00] ∧
    (software_shoot 65535 ⟨[0x04], [], [], [], false⟩).1 = .ok () ∧
    (software_shoot 65535 ⟨[0x04], [], [], [], false⟩).2.written =
      [0x04, 0xFF, 0xFF] := by
  refine ⟨?_, rfl, rfl, rfl, rfl⟩
  intro d t h
  unfold software_shoot
  rw [if_pos h]
  exact ⟨rfl, rfl⟩

theorem software_shoot_validation_witness :
    ((software_shoot 65536 ⟨[0x04], [], [], [], false⟩).1 =
        .error (.valueError "Invalid software shoot duration: it must be lesser than 65536") ∧
      (software_shoot 65536 ⟨[0x04], [], [], [], false⟩).2 =
        ⟨[0x04], [], [], [], false⟩) ∧
    ((software_shoot (-1) ⟨[0x04], [], [], [], false⟩).1 =
        .error (.valueError "Invalid software shoot duration: it must be lesser than 65536") ∧
      (software_shoot (-1) ⟨[0x04], [], [], [], false⟩).2 =
        ⟨[0x04], [], [], [], false⟩) :=
  ⟨software_shoot_validation.1 65536 ⟨[0x04], [], [], [], false⟩ (by decide),
   software_shoot_validation.1 (-1) ⟨[0x04], [], [], [], false⟩ (by decide)⟩

/-- C7: the driver's `convert` computes the polynomial
`Σ c_i * x ^ (degree - i)` with the first coefficient as the highest-degree
term (so `convert 3 [1, 0, 0] = 9`), `to_raw` is the rounded volt→raw
polynomial value, and `to_volt` is the raw→volt polynomial value. -/
theorem convert_polynomial_evaluation :
    (∀ (coeffs : List ℚ) (x : ℚ), convert x coeffs = specEvaluate coeffs x) ∧
    convert 3 [1, 0, 0] = 9 ∧
    (∀ v : ℚ, to_raw v = roundHalfEven (specEvaluate calibration_v_to_raw v)) ∧
    (∀ r : ℚ, to_volt r = specEvaluate calibration_raw_to_v r) := by
  refine ⟨fun coeffs x => convert_eq_specEvaluate x coeffs, ?_, fun v => ?_, fun r => ?_⟩
  · norm_num [convert, List.enum, List.enumFrom]
  · rw [to_raw, convert_eq_specEvaluate]
  · rw [to_volt, convert_eq_specEvaluate]

/-- C8: contrary to the claim, the driver does not treat an implausibly
large device-sent count as a protocol anomaly: on a response declaring
`20000` samples it goes on to request the unbounded `count * 2 = 40000`-byte
payload read (read requests `1`, `4`, `40000`), failing only afterwards on
the short unpack. -/
theorem adc_results_attempts_unbounded_read :
    (adc_results ⟨[0xAC, 0x00, 0x00, 0x4E, 0x20], [], [], [], false⟩).2.readRequests =
      [1, 4, 40000] ∧
    (adc_results ⟨[0xAC, 0x00, 0x00, 0x4E, 0x20], [], [], [], false⟩).1 =
      .error (.structError "unpack requires a buffer of the exact size") :=
  ⟨rfl, rfl⟩

/-- C9: `set_voltage_setpoint` fails with the struct packing error before
any transport write whenever `to_raw destination` is outside `[0, 65535]`;
when it is in range, the frame written is exactly opcode `0x07` followed by
that value as a big-endian unsigned 16-bit integer. -/
theorem set_voltage_setpoint_raw_range_behaviour (v : ℚ) (t : SerialPort)
    (hw : t.writeFails = false) :
    (¬(0 ≤ to_raw v ∧ to_raw v < 65536) →
      (set_voltage_setpoint v t).1 =
          .error (.structError "H format requires 0 <= number <= 65535") ∧
        (set_voltage_setpoint v t).2 = t) ∧
    (0 ≤ to_raw v ∧ to_raw v < 65536 →
      (set_voltage_setpoint v t).2.written =
        t.written ++ [0x07, (to_raw v).toNat / 256, (to_raw v).toNat % 256]) := by
  constructor
  · intro h
    unfold set_voltage_setpoint structPackH
    rw [if_neg h]
    exact ⟨rfl, rfl⟩
  · intro h
    unfold set_voltage_setpoint structPackH
    rw [if_pos h]
    unfold SerialPort.write SerialPort.read
    by_cases hb : List.take 1 t.input = [0x07] <;> simp [hw, hb]

theorem set_voltage_setpoint_raw_range_behaviour_witness :
    ((set_voltage_setpoint 5000 ⟨[], [], [], [], false⟩).1 =
        .error (.structError "H format requires 0 <= number <= 65535") ∧
      (set_voltage_setpoint 5000 ⟨[], [], [], [], false⟩).2 =
        ⟨[], [], [], [], false⟩) ∧
    (set_voltage_setpoint 0 ⟨[], [], [], [], false⟩).2.written =
      [] ++ [0x07, (to_raw 0).toNat / 256, (to_raw 0).toNat % 256] :=
  ⟨(set_voltage_setpoint_raw_range_behaviour 5000 ⟨[], [], [], [], false⟩ rfl).1
      (by rw [to_raw_5000]; decide),
   (set_voltage_setpoint_raw_range_behaviour 0 ⟨[], [], [], [], false⟩ rfl).2
      (by rw [to_raw_zero]; decide)⟩

/-- C10: `adc_control_on_off` returns `true` exactly when the 1-byte
response payload equals `0x01`; every other payload — `0x00`, any other
byte, or an empty read — yields `false` rather than an error. -/
theorem adc_control_on_off_payload_boolean (rest : List Nat) (t : SerialPort)
    (hw : t.writeFails = false) (hi : t.input = 0xAB :: rest) :
    (adc_control_on_off t).1 = .ok (decide (rest.take 1 = [0x01])) ∧
    ((adc_control_on_off t).1 = .ok true ↔ rest.take 1 = [0x01]) := by
  have h : (adc_control_on_off t).1 = .ok (decide (rest.take 1 = [0x01])) := by
    unfold adc_control_on_off SerialPort.write SerialPort.read
    simp [hw, hi]
  refine ⟨h, ?_⟩
  rw [h]
  simp

theorem adc_control_on_off_payload_boolean_witness :
    (adc_control_on_off ⟨[0xAB, 0x01], [], [], [], false⟩).1 = .ok true ∧
    (adc_control_on_off ⟨[0xAB, 0x00], [], [], [], false⟩).1 = .ok false ∧
    (adc_control_on_off ⟨[0xAB, 0x37], [], [], [], false⟩).1 = .ok false ∧
    (adc_control_on_off ⟨[0xAB], [], [], [], false⟩).1 = .ok false := by
  refine ⟨?_, ?_, ?_, ?_⟩
  · simpa using
      (adc_control_on_off_payload_boolean [0x01] ⟨[0xAB, 0x01], [], [], [], false⟩
        rfl rfl).1
  · simpa using
      (adc_control_on_off_payload_boolean [0x00] ⟨[0xAB, 0x00], [], [], [], false⟩
        rfl rfl).1
  · simpa using
      (adc_control_on_off_payload_boolean [0x37] ⟨[0xAB, 0x37], [], [], [], false⟩
        rfl rfl).1
  · simpa using
      (adc_control_on_off_payload_boolean [] ⟨[0xAB], [], [], [], false⟩
        rfl rfl).1
